import Mathlib

set_option autoImplicit false

deriving instance DecidableEq for Except

/-!
Shallow embedding of the Codacy backend plugin core
(plugins/codacy-backend, file codacyInfoProvider.ts): the instance
registry (CodacyConfig.fromConfig / getInstanceConfig) and the findings
aggregator (DefaultCodacyInfoProvider.getFindings with its helpers
calculate_grade and callApi).  JavaScript numbers coming out of JSON are
modelled as rationals; arithmetic results that can be NaN or infinite are
modelled by the JsNumber type.  Thrown JavaScript errors are modelled by
Except, with one error constructor per throw site of the source.
-/

namespace Codacy

/-- One Codacy instance as it appears in the registry
(interface CodacyInstanceConfig of the source). -/
structure CodacyInstanceConfig where
  name : String
  baseUrl : String
  externalBaseUrl : Option String
  apiKey : String
  deriving DecidableEq

/-- The registry: the ordered list of configured instances
(class CodacyConfig of the source). -/
structure CodacyConfig where
  instances : List CodacyInstanceConfig
  deriving DecidableEq

/-- The `codacy` block of the Backstage configuration, as read by
CodacyConfig.fromConfig.  Optional keys are modelled by Option; reading a
configuration without a `codacy` block fails before fromConfig runs, so it
is outside this model.  Named entries have required name, baseUrl and
apiKey keys (reading them throws earlier otherwise), hence they share the
shape of CodacyInstanceConfig. -/
structure RawCodacyConfig where
  instances : Option (List CodacyInstanceConfig)
  baseUrl : Option String
  externalBaseUrl : Option String
  apiKey : Option String
  deriving DecidableEq

/-- The two throw sites of CodacyConfig.fromConfig: the conflict between a
named default instance and top level config (source line 164), and the
partial top level config (source line 172). -/
inductive ConfigError where
  | conflictingDefaultConfig
  | partialDefaultConfig
  deriving DecidableEq

/-- The two throw sites of CodacyConfig.getInstanceConfig: no default
instance found (source line 215, a single message used both when the name
is omitted or empty and when it is literally "default"), and a named
instance not found (source line 227, message carrying the name). -/
inductive ResolveError where
  | noDefaultInstance
  | namedNotFound (name : String)
  deriving DecidableEq

/-- JavaScript truthiness of the result of getOptionalString: undefined is
falsy, a string is truthy exactly when it is non-empty. -/
def strTruthy : Option String → Bool
  | none => false
  | some s => s != ""

/-- Whether the named instance list of the configuration holds an entry
literally named default (source lines 154 to 156). -/
def hasNamedDefault (codacyConfig : RawCodacyConfig) : Bool :=
  (codacyConfig.instances.getD []).any fun x => x.name == "default"

/-- Embedding of CodacyConfig.fromConfig (source lines 139 to 194).  The
conditions reproduce the JavaScript truthiness tests of the source
(`baseUrl || externalBaseUrl || apiKey`, `!baseUrl && !apiKey`,
`baseUrl && apiKey`). -/
def fromConfig (codacyConfig : RawCodacyConfig) : Except ConfigError CodacyConfig :=
  let namedInstanceConfig := codacyConfig.instances.getD []
  let baseUrl := codacyConfig.baseUrl
  let externalBaseUrl := codacyConfig.externalBaseUrl
  let apiKey := codacyConfig.apiKey
  if hasNamedDefault codacyConfig && (strTruthy baseUrl || strTruthy externalBaseUrl || strTruthy apiKey) then
    Except.error ConfigError.conflictingDefaultConfig
  else
    let unnamedNonePresent := !strTruthy baseUrl && !strTruthy apiKey
    let unnamedAllPresent := strTruthy baseUrl && strTruthy apiKey
    if !(unnamedAllPresent || unnamedNonePresent) then
      Except.error ConfigError.partialDefaultConfig
    else if unnamedAllPresent then
      Except.ok ⟨namedInstanceConfig ++ [⟨"default", baseUrl.getD "", externalBaseUrl, apiKey.getD ""⟩]⟩
    else
      Except.ok ⟨namedInstanceConfig⟩

/-- Embedding of CodacyConfig.getInstanceConfig (source lines 202 to 232).
The guard reproduces `!codacyName || codacyName === DEFAULT_CODACY_NAME`
(an omitted name and the empty string are both falsy). -/
def getInstanceConfig (config : CodacyConfig) (codacyName : Option String) :
    Except ResolveError CodacyInstanceConfig :=
  if !strTruthy codacyName || codacyName == some "default" then
    match config.instances.find? fun c => c.name == "default" with
    | some instanceConfig => Except.ok instanceConfig
    | none => Except.error ResolveError.noDefaultInstance
  else
    match config.instances.find? fun c => some c.name == codacyName with
    | some instanceConfig => Except.ok instanceConfig
    | none => Except.error (ResolveError.namedNotFound (codacyName.getD ""))

/-- A JavaScript number as produced by the arithmetic of getFindings: a
finite value (a rational, since every number decoded from JSON is finite),
NaN, or a signed infinity. -/
inductive JsNumber where
  | num (q : ℚ)
  | nan
  | inf
  | ninf
  deriving DecidableEq

/-- JavaScript division of two finite numbers, as used for the averages of
getFindings: division by zero gives NaN for a zero dividend and a signed
infinity otherwise. -/
def jsDiv (a b : ℚ) : JsNumber :=
  if b = 0 then
    if a = 0 then JsNumber.nan
    else if 0 < a then JsNumber.inf
    else JsNumber.ninf
  else JsNumber.num (a / b)

/-- JavaScript comparison `x >= c` of a number against a finite constant:
false on NaN, true on positive infinity, false on negative infinity. -/
def jsGe (x : JsNumber) (c : ℚ) : Bool :=
  match x with
  | JsNumber.num q => c ≤ q
  | JsNumber.nan => false
  | JsNumber.inf => true
  | JsNumber.ninf => false

/-- Embedding of DefaultCodacyInfoProvider.calculate_grade (source lines
251 to 264): the switch(true) ladder, first matching case wins. -/
def calculate_grade (grade : JsNumber) : String :=
  if jsGe grade 90 then "A"
  else if jsGe grade 80 then "B"
  else if jsGe grade 70 then "C"
  else if jsGe grade 60 then "D"
  else "F"

/-- One record of the analysis array (the element type of
ComponentWrapper.data in the source).  Every field is optional in the
decoded JSON; a present field is a finite number. -/
structure AnalysisRecord where
  grade : Option ℚ
  coveragePercentageWithDecimals : Option ℚ
  issuesPercentage : Option ℚ
  complexFilesPercentage : Option ℚ
  duplicationPercentage : Option ℚ
  deriving DecidableEq

/-- JavaScript truthiness of an optional numeric field decoded from JSON:
absent is falsy, a number is truthy exactly when it is non-zero (JSON
cannot encode NaN). -/
def numTruthy : Option ℚ → Bool
  | none => false
  | some q => q != 0

/-- The five running sums of the accumulation loop of getFindings (source
lines 346 to 350). -/
structure RunningSums where
  grade_total : ℚ
  code_coverage : ℚ
  issuesPercentage : ℚ
  complexFilesPercentage : ℚ
  duplicationPercentage : ℚ
  deriving DecidableEq

/-- One iteration of the accumulation loop of getFindings (source lines
352 to 378): for each field, add its value when truthy and the fallback
100 otherwise. -/
def accumulate (s : RunningSums) (r : AnalysisRecord) : RunningSums where
  grade_total := if numTruthy r.grade then s.grade_total + r.grade.getD 0 else s.grade_total + 100
  code_coverage := if numTruthy r.coveragePercentageWithDecimals then s.code_coverage + r.coveragePercentageWithDecimals.getD 0 else s.code_coverage + 100
  issuesPercentage := if numTruthy r.issuesPercentage then s.issuesPercentage + r.issuesPercentage.getD 0 else s.issuesPercentage + 100
  complexFilesPercentage := if numTruthy r.complexFilesPercentage then s.complexFilesPercentage + r.complexFilesPercentage.getD 0 else s.complexFilesPercentage + 100
  duplicationPercentage := if numTruthy r.duplicationPercentage then s.duplicationPercentage + r.duplicationPercentage.getD 0 else s.duplicationPercentage + 100

/-- The data object of the security dashboard response (the inner type of
SecurityComponentWrapper in the source). -/
structure SecurityData where
  totalOpen : ℚ
  totalClosed : ℚ
  onTrack : ℚ
  closedOnTime : ℚ
  deriving DecidableEq

/-- Decoded body of the security dashboard response (interface
SecurityComponentWrapper of the source); the data object may be missing
from the decoded JSON. -/
structure SecurityComponentWrapper where
  data : Option SecurityData
  deriving DecidableEq

/-- Decoded body of the analysis response (interface ComponentWrapper of
the source); only its data array is ever read, and that array may be
missing from the decoded JSON. -/
structure ComponentWrapper where
  data : Option (List AnalysisRecord)
  deriving DecidableEq

/-- The object returned by getFindings on success (metrics_general, source
lines 394 to 405). -/
structure MetricsGeneral where
  grade : JsNumber
  grade_letter : String
  code_coverage : JsNumber
  issuesPercentage : JsNumber
  complexFilesPercentage : JsNumber
  duplicationPercentage : JsNumber
  totalOpen : ℚ
  totalClosed : ℚ
  onTrack : ℚ
  closedOnTime : ℚ
  deriving DecidableEq

/-- A JavaScript error escaping getFindings: a configuration error thrown
by getInstanceConfig, or the TypeError raised by reading a property of
undefined (the access security.data.totalOpen at source line 401 when the
decoded security body has no data object). -/
inductive JsError where
  | configError (e : ResolveError)
  | typeError (msg : String)
  deriving DecidableEq

/-- The outside world observed by getFindings: for each request URL, the
HTTP status of the response to the POST issued by callApi, and the
response body decoded (by the unchecked cast of the source) as a security
wrapper or as an analysis wrapper.  A body of none models a JSON null or
otherwise falsy body. -/
structure Env where
  status : String → ℕ
  securityBody : String → Option SecurityComponentWrapper
  analysisBody : String → Option ComponentWrapper

/-- The URL built by callApi (source line 280), including its trailing
space. -/
def url_with_path (url path : String) : String := url ++ "/" ++ path ++ " "

/-- The path of the first (security dashboard) call of getFindings (source
line 330), parameterised by the component key. -/
def securityPath (componentKey : String) : String :=
  "organizations/gh/" ++ componentKey ++ "/security/dashboard"

/-- The path of the second (analysis) call of getFindings (source line
339): a string literal, hard coded to the organization MonkeyECX. -/
def analysisPath : String := "search/analysis/organizations/gh/MonkeyECX/repositories"

/-- Full URL of the security dashboard call. -/
def securityUrl (baseUrl componentKey : String) : String :=
  url_with_path baseUrl (securityPath componentKey)

/-- Full URL of the analysis call. -/
def analysisUrl (baseUrl : String) : String := url_with_path baseUrl analysisPath

/-- Embedding of DefaultCodacyInfoProvider.callApi (source lines 275 to
295): returns the decoded body when the response status is exactly 200 and
undefined (none) otherwise.  The body decoder is passed in, standing for
the unchecked cast to the expected type; the auth token only travels in a
header and does not influence the modelled response. -/
def callApi {T : Type} (env : Env) (body : String → T) (url path authToken : String) :
    Option T :=
  let u := url_with_path url path
  let _ := authToken
  if env.status u = 200 then some (body u) else none

/-- Body of DefaultCodacyInfoProvider.getFindings after instance
resolution (source lines 326 to 450), given the resolved baseUrl and
apiKey.  A thrown error is Except.error; an undefined result is
Except.ok none.  The truthiness guards of the source (`!security`,
`!analysis || !analysis.data`) are reproduced by the nested matches: an
undefined call result or a null body is falsy, any object is truthy (also
the empty data array). -/
def aggregateFindings (env : Env) (baseUrl apiKey componentKey : String) :
    Except JsError (Option MetricsGeneral) :=
  match callApi env env.securityBody baseUrl (securityPath componentKey) apiKey with
    | none => Except.ok none
    | some none => Except.ok none
    | some (some security) =>
      match callApi env env.analysisBody baseUrl analysisPath apiKey with
      | none => Except.ok none
      | some none => Except.ok none
      | some (some analysis) =>
        match analysis.data with
        | none => Except.ok none
        | some data =>
          let sums := data.foldl accumulate ⟨0, 0, 0, 0, 0⟩
          let len : ℚ := (data.length : ℚ)
          let grade_average := jsDiv sums.grade_total len
          let code_coverage_average := jsDiv sums.code_coverage len
          let issuesPercentage_average := jsDiv sums.issuesPercentage len
          let complexFilesPercentage_average := jsDiv sums.complexFilesPercentage len
          let duplicationPercentage_average := jsDiv sums.duplicationPercentage len
          match security.data with
          | none => Except.error (JsError.typeError "Cannot read properties of undefined (reading totalOpen)")
          | some sd =>
            Except.ok (some
              { grade := grade_average
                grade_letter := calculate_grade grade_average
                code_coverage := code_coverage_average
                issuesPercentage := issuesPercentage_average
                complexFilesPercentage := complexFilesPercentage_average
                duplicationPercentage := duplicationPercentage_average
                totalOpen := sd.totalOpen
                totalClosed := sd.totalClosed
                onTrack := sd.onTrack
                closedOnTime := sd.closedOnTime })

/-- Embedding of DefaultCodacyInfoProvider.getFindings (source lines 318
to 450): resolve the instance (a failure there is a thrown configuration
error), then aggregate with the resolved baseUrl and apiKey. -/
def getFindings (config : CodacyConfig) (env : Env)
    (componentKey : String) (instanceName : Option String) :
    Except JsError (Option MetricsGeneral) :=
  match getInstanceConfig config instanceName with
  | Except.error e => Except.error (JsError.configError e)
  | Except.ok instanceConfig =>
    aggregateFindings env instanceConfig.baseUrl instanceConfig.apiKey componentKey

/-- Whether a decoded analysis body lacks the analysis array: the body is
null (or otherwise falsy) or its data field is missing. -/
def lacksData : Option ComponentWrapper → Bool
  | none => true
  | some w => w.data.isNone

/-- The averaged metrics portion of a summary: grade, grade letter and the
four averaged percentages (everything except the four security counters). -/
def averagedMetrics (m : MetricsGeneral) :
    JsNumber × String × JsNumber × JsNumber × JsNumber × JsNumber :=
  (m.grade, m.grade_letter, m.code_coverage, m.issuesPercentage,
    m.complexFilesPercentage, m.duplicationPercentage)

/-! Concrete inputs used by counterexamples, code bug evaluations and
witnesses. -/

/-- Analysis record with all five fields present: grade 100, coverage 100,
issues 0, complex files 0, duplication 0. -/
def recordPresent : AnalysisRecord := ⟨some 100, some 100, some 0, some 0, some 0⟩

/-- Analysis record with all five fields absent. -/
def recordAbsent : AnalysisRecord := ⟨none, none, none, none, none⟩

/-- A default instance record. -/
def inst0 : CodacyInstanceConfig := ⟨"default", "https://app.codacy.com/api/v3", none, "secret"⟩

/-- A registry holding a single instance named default. -/
def cfg0 : CodacyConfig := ⟨[inst0]⟩

/-- Environment answering 200 everywhere, with a well formed security body
and an analysis array holding recordPresent and recordAbsent. -/
def envTwoRecords : Env :=
  { status := fun _ => 200
    securityBody := fun _ => some ⟨some ⟨1, 2, 3, 4⟩⟩
    analysisBody := fun _ => some ⟨some [recordPresent, recordAbsent]⟩ }

/-- The summary the aggregation computes on envTwoRecords: all five
averages are 100 (every falsy field contributed the fallback 100) and the
letter is A. -/
def metricsTwoRecords : MetricsGeneral :=
  ⟨JsNumber.num 100, "A", JsNumber.num 100, JsNumber.num 100, JsNumber.num 100,
    JsNumber.num 100, 1, 2, 3, 4⟩

/-- Environment answering 200 everywhere whose security body is an object
without the data field, while the analysis response is well formed. -/
def envMissingSecurityData : Env :=
  { status := fun _ => 200
    securityBody := fun _ => some ⟨none⟩
    analysisBody := fun _ => some ⟨some [⟨some 90, some 90, some 10, some 10, some 10⟩]⟩ }

/-- Environment whose every response has status 500. -/
def envAllDown : Env :=
  { status := fun _ => 500
    securityBody := fun _ => some ⟨some ⟨1, 2, 3, 4⟩⟩
    analysisBody := fun _ => some ⟨some []⟩ }

/-- Environment answering 200 everywhere with an empty analysis array. -/
def envEmptyAnalysis : Env :=
  { status := fun _ => 200
    securityBody := fun _ => some ⟨some ⟨5, 6, 7, 8⟩⟩
    analysisBody := fun _ => some ⟨some []⟩ }

/-- Two named instances sharing the name dup. -/
def dupA : CodacyInstanceConfig := ⟨"dup", "https://a.example.com", none, "k1"⟩

/-- Second instance also named dup. -/
def dupB : CodacyInstanceConfig := ⟨"dup", "https://b.example.com", none, "k2"⟩

/-- Raw configuration whose named list holds two entries with the same
name and no top level fields. -/
def rawDup : RawCodacyConfig := ⟨some [dupA, dupB], none, none, none⟩

/-- Raw configuration with a named default entry and a top level baseUrl
but no top level apiKey: the conflict rule and the incompleteness rule
both apply to it. -/
def rawConflictPartial : RawCodacyConfig :=
  ⟨some [⟨"default", "https://a.example.com", none, "k"⟩],
    some "https://top.example.com", none, none⟩

/-- A registry without any instance named default. -/
def cfgNoDefault : CodacyConfig := ⟨[⟨"other", "https://other.example.com", none, "k"⟩]⟩

/-! Helper lemma shared by the findings theorems. -/

/-- When resolution succeeds, getFindings is the aggregation at the
resolved baseUrl and apiKey. -/
theorem getFindings_resolved (config : CodacyConfig) (env : Env) (componentKey : String)
    (instanceName : Option String) (inst : CodacyInstanceConfig)
    (hres : getInstanceConfig config instanceName = Except.ok inst) :
    getFindings config env componentKey instanceName =
      aggregateFindings env inst.baseUrl inst.apiKey componentKey := by
  unfold getFindings
  rw [hres]

/-! Claim theorems. -/

/-- Claim C1, counterexample: on the analysis array holding the record
with grade 100, coverage 100 and the three percentages 0 next to the
record with all fields absent, getFindings returns the summary whose
issuesPercentage average is 100, not the 50 the claim states: the present
value 0 is falsy in JavaScript, so the loop adds the fallback 100 for it. -/
theorem c1_counterexample :
    getFindings cfg0 envTwoRecords "comp" none = Except.ok (some metricsTwoRecords) ∧
    metricsTwoRecords.issuesPercentage = JsNumber.num 100 ∧
    JsNumber.num 100 ≠ JsNumber.num 50 := by
  refine ⟨?_, rfl, by simp⟩
  simp [getFindings, getInstanceConfig, aggregateFindings, cfg0, inst0, envTwoRecords,
    callApi, accumulate, recordPresent, recordAbsent, jsDiv, calculate_grade, jsGe,
    numTruthy, strTruthy, url_with_path, securityPath, analysisPath, metricsTwoRecords]
  norm_num

/-- Claim C1, amended: on that two record array the summary has grade
average 100 with letter A, and issuesPercentage average 100 (the present
value 0 is falsy, so the per field accumulation adds the fallback 100 for
it in both records). -/
theorem c1_amended :
    ∃ m : MetricsGeneral,
      getFindings cfg0 envTwoRecords "comp" none = Except.ok (some m) ∧
      m.grade = JsNumber.num 100 ∧ m.grade_letter = "A" ∧
      m.issuesPercentage = JsNumber.num 100 := by
  refine ⟨metricsTwoRecords, ?_, rfl, rfl, rfl⟩
  simp [getFindings, getInstanceConfig, aggregateFindings, cfg0, inst0, envTwoRecords,
    callApi, accumulate, recordPresent, recordAbsent, jsDiv, calculate_grade, jsGe,
    numTruthy, strTruthy, url_with_path, securityPath, analysisPath, metricsTwoRecords]
  norm_num

/-- Claim C2: the letter classification returns A for grades at least 90,
B on [80, 90), C on [70, 80), D on [60, 70) and F below 60; in particular
90 gives A, 89.999 and 80 give B, 69.999 gives D and 59.999 gives F. -/
theorem c2_grade_thresholds (g : ℚ) :
    (90 ≤ g → calculate_grade (JsNumber.num g) = "A") ∧
    (80 ≤ g ∧ g < 90 → calculate_grade (JsNumber.num g) = "B") ∧
    (70 ≤ g ∧ g < 80 → calculate_grade (JsNumber.num g) = "C") ∧
    (60 ≤ g ∧ g < 70 → calculate_grade (JsNumber.num g) = "D") ∧
    (g < 60 → calculate_grade (JsNumber.num g) = "F") ∧
    calculate_grade (JsNumber.num 90) = "A" ∧
    calculate_grade (JsNumber.num (89999 / 1000)) = "B" ∧
    calculate_grade (JsNumber.num 80) = "B" ∧
    calculate_grade (JsNumber.num (69999 / 1000)) = "D" ∧
    calculate_grade (JsNumber.num (59999 / 1000)) = "F" := by
  refine ⟨?_, ?_, ?_, ?_, ?_, ?_, ?_, ?_, ?_, ?_⟩ <;>
    simp only [calculate_grade, jsGe, decide_eq_true_eq] <;>
    (try intro h) <;> (try obtain ⟨h1, h2⟩ := h) <;>
    split_ifs <;> first | rfl | linarith

/-- Claim C2, witness: the grade 95 is classified as A. -/
theorem c2_grade_thresholds_witness :
    (90 : ℚ) ≤ 95 ∧ calculate_grade (JsNumber.num 95) = "A" :=
  ⟨by decide, (c2_grade_thresholds 95).1 (by decide)⟩

/-- Claim C3: once the instance resolves, a security dashboard response
status other than 200 makes getFindings return absent, and so does an
analysis response status other than 200 or an analysis body lacking the
data array. -/
theorem c3_absent_on_api_failure (config : CodacyConfig) (env : Env) (componentKey : String)
    (instanceName : Option String) (inst : CodacyInstanceConfig)
    (hres : getInstanceConfig config instanceName = Except.ok inst) :
    (env.status (securityUrl inst.baseUrl componentKey) ≠ 200 →
      getFindings config env componentKey instanceName = Except.ok none) ∧
    ((env.status (analysisUrl inst.baseUrl) ≠ 200 ∨
        lacksData (env.analysisBody (analysisUrl inst.baseUrl)) = true) →
      getFindings config env componentKey instanceName = Except.ok none) := by
  have hg : getFindings config env componentKey instanceName =
      aggregateFindings env inst.baseUrl inst.apiKey componentKey := by
    unfold getFindings; rw [hres]
  rw [hg]
  constructor
  · intro h
    simp only [securityUrl] at h
    have hc : callApi env env.securityBody inst.baseUrl (securityPath componentKey)
        inst.apiKey = none := by
      simp only [callApi]
      rw [if_neg h]
    unfold aggregateFindings
    rw [hc]
  · intro h
    unfold aggregateFindings
    rcases hsec : callApi env env.securityBody inst.baseUrl (securityPath componentKey)
        inst.apiKey with _ | (_ | w)
    · rfl
    · rfl
    · rcases h with h1 | h2
      · simp only [analysisUrl] at h1
        have hc : callApi env env.analysisBody inst.baseUrl analysisPath inst.apiKey = none := by
          simp only [callApi]
          rw [if_neg h1]
        rw [hc]
      · by_cases ha : env.status (analysisUrl inst.baseUrl) = 200
        · have hc : callApi env env.analysisBody inst.baseUrl analysisPath inst.apiKey =
              some (env.analysisBody (analysisUrl inst.baseUrl)) := by
            simp only [callApi, analysisUrl]
            rw [if_pos (by simpa [analysisUrl] using ha)]
          rw [hc]
          cases hb : env.analysisBody (analysisUrl inst.baseUrl) with
          | none => rfl
          | some w2 =>
            have hd : w2.data = none := by
              rw [hb] at h2
              simpa [lacksData, Option.isNone_iff_eq_none] using h2
            simp only []
            rw [hd]
        · have hc : callApi env env.analysisBody inst.baseUrl analysisPath inst.apiKey = none := by
            simp only [callApi]
            rw [if_neg (by simpa [analysisUrl] using ha)]
          rw [hc]

/-- Claim C3, witness: with every response at status 500, getFindings on
the default instance returns absent. -/
theorem c3_absent_on_api_failure_witness :
    getFindings cfg0 envAllDown "comp" none = Except.ok none :=
  (c3_absent_on_api_failure cfg0 envAllDown "comp" none inst0 (by decide)).1 (by decide)

/-- Claim C4, code bug evaluation: with both calls answering 200 but the
security body lacking its data object, getFindings throws the TypeError
of the unguarded access security.data.totalOpen instead of returning
absent or a summary, contradicting the stated contract that only
configuration errors are thrown. -/
theorem c4_typeerror_on_missing_security_data :
    getFindings cfg0 envMissingSecurityData "comp" none =
      Except.error (JsError.typeError "Cannot read properties of undefined (reading totalOpen)") := by
  simp [getFindings, getInstanceConfig, aggregateFindings, callApi, cfg0, inst0,
    envMissingSecurityData, strTruthy]

/-- Claim C5: a configuration with only the top level fields fully set
(non-empty baseUrl and apiKey, no named instances) constructs a registry
with the synthetic default record, and resolving with no name, the empty
name or the name default returns that record with exactly the top level
values. -/
theorem c5_default_roundtrip (b k : String) (e : Option String) (hb : b ≠ "") (hk : k ≠ "") :
    fromConfig ⟨none, some b, e, some k⟩ = Except.ok ⟨[⟨"default", b, e, k⟩]⟩ ∧
    getInstanceConfig ⟨[⟨"default", b, e, k⟩]⟩ none = Except.ok ⟨"default", b, e, k⟩ ∧
    getInstanceConfig ⟨[⟨"default", b, e, k⟩]⟩ (some "") = Except.ok ⟨"default", b, e, k⟩ ∧
    getInstanceConfig ⟨[⟨"default", b, e, k⟩]⟩ (some "default") = Except.ok ⟨"default", b, e, k⟩ := by
  refine ⟨?_, ?_, ?_, ?_⟩
  · simp [fromConfig, hasNamedDefault, strTruthy, hb, hk]
  · simp [getInstanceConfig, strTruthy]
  · simp [getInstanceConfig, strTruthy]
  · simp [getInstanceConfig, strTruthy]

/-- Claim C5, witness: the round trip at a concrete top level only
configuration. -/
theorem c5_default_roundtrip_witness :
    ("https://c.example.com" : String) ≠ "" ∧ ("key" : String) ≠ "" ∧
    (fromConfig ⟨none, some "https://c.example.com", none, some "key"⟩ =
      Except.ok ⟨[⟨"default", "https://c.example.com", none, "key"⟩]⟩ ∧
    getInstanceConfig ⟨[⟨"default", "https://c.example.com", none, "key"⟩]⟩ none =
      Except.ok ⟨"default", "https://c.example.com", none, "key"⟩ ∧
    getInstanceConfig ⟨[⟨"default", "https://c.example.com", none, "key"⟩]⟩ (some "") =
      Except.ok ⟨"default", "https://c.example.com", none, "key"⟩ ∧
    getInstanceConfig ⟨[⟨"default", "https://c.example.com", none, "key"⟩]⟩ (some "default") =
      Except.ok ⟨"default", "https://c.example.com", none, "key"⟩) :=
  ⟨by decide, by decide,
    c5_default_roundtrip "https://c.example.com" "key" none (by decide) (by decide)⟩

/-- Claim C6, counterexample: construction accepts two named instances
sharing the name dup, so a successful construction can leave two records
with the same name in the registry, against the claimed uniqueness
invariant. -/
theorem c6_counterexample :
    fromConfig rawDup = Except.ok ⟨[dupA, dupB]⟩ ∧ dupA.name = dupB.name ∧ dupA ≠ dupB := by
  decide

/-- Claim C6, amended: construction never filters or rejects duplicate
names; a successful construction returns exactly the named list, plus the
synthetic default record when the top level pair is truthy. -/
theorem c6_amended (raw : RawCodacyConfig) (cfg : CodacyConfig)
    (h : fromConfig raw = Except.ok cfg) :
    cfg.instances = raw.instances.getD [] ++
      (if strTruthy raw.baseUrl && strTruthy raw.apiKey then
        [⟨"default", raw.baseUrl.getD "", raw.externalBaseUrl, raw.apiKey.getD ""⟩] else []) := by
  simp only [fromConfig] at h
  split_ifs at h with h1 h2 h3
  · rw [Except.ok.injEq] at h
    rw [← h, if_pos h3]
  · rw [Except.ok.injEq] at h
    rw [← h, if_neg h3]
    simp

/-- Claim C6, witness: the duplicate configuration constructs exactly its
named list. -/
theorem c6_amended_witness :
    (⟨[dupA, dupB]⟩ : CodacyConfig).instances = rawDup.instances.getD [] ++
      (if strTruthy rawDup.baseUrl && strTruthy rawDup.apiKey then
        [⟨"default", rawDup.baseUrl.getD "", rawDup.externalBaseUrl, rawDup.apiKey.getD ""⟩]
      else []) :=
  c6_amended rawDup ⟨[dupA, dupB]⟩ (by decide)

/-- Claim C7, counterexample: on a configuration with a named default
entry and a top level baseUrl but no top level apiKey, exactly one of the
baseUrl and apiKey pair is given, yet construction fails with the
conflict error, not with the incompleteness error the claim predicts: the
conflict rule is checked first. -/
theorem c7_counterexample :
    strTruthy rawConflictPartial.baseUrl = true ∧ strTruthy rawConflictPartial.apiKey = false ∧
    fromConfig rawConflictPartial = Except.error ConfigError.conflictingDefaultConfig ∧
    ConfigError.conflictingDefaultConfig ≠ ConfigError.partialDefaultConfig := by
  decide

/-- Claim C7, amended: a named default entry together with any truthy top
level field fails with the conflict error; when no named default entry
exists, giving exactly one of the baseUrl and apiKey pair fails with the
incompleteness error; and when neither baseUrl nor apiKey is truthy the
incompleteness error is never raised (externalBaseUrl alone never
triggers it). -/
theorem c7_amended (raw : RawCodacyConfig) :
    (hasNamedDefault raw = true ∧
        (strTruthy raw.baseUrl || strTruthy raw.externalBaseUrl || strTruthy raw.apiKey) = true →
      fromConfig raw = Except.error ConfigError.conflictingDefaultConfig) ∧
    (hasNamedDefault raw = false ∧ strTruthy raw.baseUrl ≠ strTruthy raw.apiKey →
      fromConfig raw = Except.error ConfigError.partialDefaultConfig) ∧
    (strTruthy raw.baseUrl = false ∧ strTruthy raw.apiKey = false →
      fromConfig raw ≠ Except.error ConfigError.partialDefaultConfig) := by
  refine ⟨?_, ?_, ?_⟩
  · intro ⟨h1, h2⟩
    simp [fromConfig, h1, h2]
  · intro ⟨h1, h2⟩
    cases hb : strTruthy raw.baseUrl <;> cases ha : strTruthy raw.apiKey <;>
      simp [hb, ha] at h2 ⊢ <;> simp [fromConfig, h1, hb, ha]
  · intro ⟨h1, h2⟩
    cases hd : hasNamedDefault raw <;> cases he : strTruthy raw.externalBaseUrl <;>
      simp [fromConfig, h1, h2, hd, he]

/-- Claim C7, witness: the conflict error at the configuration with a
named default entry and a top level baseUrl. -/
theorem c7_amended_witness :
    fromConfig rawConflictPartial = Except.error ConfigError.conflictingDefaultConfig :=
  (c7_amended rawConflictPartial).1 ⟨by decide, by decide⟩

/-- Claim C8, counterexample: with no default instance configured,
resolving with the name omitted and resolving with the explicit name
default take the same branch and raise the very same error (a single
throw site with a single message), against the claimed distinct messages. -/
theorem c8_counterexample :
    getInstanceConfig cfgNoDefault none = Except.error ResolveError.noDefaultInstance ∧
    getInstanceConfig cfgNoDefault (some "default") =
      Except.error ResolveError.noDefaultInstance ∧
    getInstanceConfig cfgNoDefault none = getInstanceConfig cfgNoDefault (some "default") := by
  decide

/-- Claim C8, amended: when the name is absent, empty or default and no
record named default exists, resolution fails with the single no default
instance error, the same one in all three cases. -/
theorem c8_amended (config : CodacyConfig) (name : Option String)
    (hnone : config.instances.find? (fun c => c.name == "default") = none)
    (hname : strTruthy name = false ∨ name = some "default") :
    getInstanceConfig config name = Except.error ResolveError.noDefaultInstance := by
  have hcond : (!strTruthy name || name == some "default") = true := by
    rcases hname with h | h
    · simp [h]
    · simp [h]
  simp [getInstanceConfig, hcond, hnone]

/-- Claim C8, witness: the no default error on a registry without a
default record. -/
theorem c8_amended_witness :
    getInstanceConfig cfgNoDefault none = Except.error ResolveError.noDefaultInstance :=
  c8_amended cfgNoDefault none (by decide) (Or.inl (by decide))

/-- Claim C9: an empty analysis array is not special cased: the zero sums
are divided by the zero length and every averaged field of the returned
summary is NaN (and the NaN grade classifies as F, every comparison on
NaN being false). -/
theorem c9_empty_analysis_nan (config : CodacyConfig) (env : Env) (componentKey : String)
    (instanceName : Option String) (inst : CodacyInstanceConfig) (sd : SecurityData)
    (hres : getInstanceConfig config instanceName = Except.ok inst)
    (hs : env.status (securityUrl inst.baseUrl componentKey) = 200)
    (hsb : env.securityBody (securityUrl inst.baseUrl componentKey) = some ⟨some sd⟩)
    (ha : env.status (analysisUrl inst.baseUrl) = 200)
    (hab : env.analysisBody (analysisUrl inst.baseUrl) = some ⟨some []⟩) :
    getFindings config env componentKey instanceName =
      Except.ok (some
        { grade := JsNumber.nan, grade_letter := "F",
          code_coverage := JsNumber.nan, issuesPercentage := JsNumber.nan,
          complexFilesPercentage := JsNumber.nan, duplicationPercentage := JsNumber.nan,
          totalOpen := sd.totalOpen, totalClosed := sd.totalClosed,
          onTrack := sd.onTrack, closedOnTime := sd.closedOnTime }) := by
  rw [getFindings_resolved config env componentKey instanceName inst hres]
  have h1 : callApi env env.securityBody inst.baseUrl (securityPath componentKey) inst.apiKey =
      some (some ⟨some sd⟩) := by
    simp only [callApi]
    rw [if_pos (by simpa [securityUrl] using hs)]
    rw [show url_with_path inst.baseUrl (securityPath componentKey) =
      securityUrl inst.baseUrl componentKey from rfl, hsb]
  have h2 : callApi env env.analysisBody inst.baseUrl analysisPath inst.apiKey =
      some (some ⟨some []⟩) := by
    simp only [callApi]
    rw [if_pos (by simpa [analysisUrl] using ha)]
    rw [show url_with_path inst.baseUrl analysisPath = analysisUrl inst.baseUrl from rfl, hab]
  unfold aggregateFindings
  rw [h1, h2]
  simp [jsDiv, calculate_grade, jsGe]

/-- Claim C9, witness: NaN averages on a concrete empty analysis array. -/
theorem c9_empty_analysis_nan_witness :
    getFindings cfg0 envEmptyAnalysis "comp" none =
      Except.ok (some
        { grade := JsNumber.nan, grade_letter := "F",
          code_coverage := JsNumber.nan, issuesPercentage := JsNumber.nan,
          complexFilesPercentage := JsNumber.nan, duplicationPercentage := JsNumber.nan,
          totalOpen := 5, totalClosed := 6, onTrack := 7, closedOnTime := 8 }) :=
  c9_empty_analysis_nan cfg0 envEmptyAnalysis "comp" none inst0 ⟨5, 6, 7, 8⟩
    (by decide) rfl rfl rfl rfl

/-- Claim C10: the analysis call goes to a URL that is a constant path
hard coded to the organization MonkeyECX, independent of the component
key; hence two getFindings invocations that resolve to the same instance
and observe identical responses produce identical averaged metrics even
for different component keys. -/
theorem c10_constant_analysis_url (config : CodacyConfig) (env : Env)
    (instanceName : Option String) (inst : CodacyInstanceConfig) (k1 k2 : String)
    (hres : getInstanceConfig config instanceName = Except.ok inst)
    (hstat : env.status (securityUrl inst.baseUrl k1) = env.status (securityUrl inst.baseUrl k2))
    (hbody : env.securityBody (securityUrl inst.baseUrl k1) =
      env.securityBody (securityUrl inst.baseUrl k2)) :
    analysisUrl inst.baseUrl =
      url_with_path inst.baseUrl "search/analysis/organizations/gh/MonkeyECX/repositories" ∧
    Except.map (Option.map averagedMetrics) (getFindings config env k1 instanceName) =
      Except.map (Option.map averagedMetrics) (getFindings config env k2 instanceName) := by
  constructor
  · rfl
  · rw [getFindings_resolved config env k1 instanceName inst hres,
      getFindings_resolved config env k2 instanceName inst hres]
    have hsec : callApi env env.securityBody inst.baseUrl (securityPath k1) inst.apiKey =
        callApi env env.securityBody inst.baseUrl (securityPath k2) inst.apiKey := by
      simp only [callApi]
      rw [show url_with_path inst.baseUrl (securityPath k1) = securityUrl inst.baseUrl k1 from rfl,
        show url_with_path inst.baseUrl (securityPath k2) = securityUrl inst.baseUrl k2 from rfl,
        hstat, hbody]
    unfold aggregateFindings
    rw [hsec]

/-- Claim C10, witness: identical averaged metrics for two different
component keys under one environment. -/
theorem c10_constant_analysis_url_witness :
    analysisUrl inst0.baseUrl =
      url_with_path inst0.baseUrl "search/analysis/organizations/gh/MonkeyECX/repositories" ∧
    Except.map (Option.map averagedMetrics) (getFindings cfg0 envTwoRecords "compA" none) =
      Except.map (Option.map averagedMetrics) (getFindings cfg0 envTwoRecords "compB" none) :=
  c10_constant_analysis_url cfg0 envTwoRecords none inst0 "compA" "compB" (by decide) rfl rfl

end Codacy
